import Mathlib

/-!
Shallow embedding of the keyplus xmega port sources
(ports/xmega-c/src/matrix_scanner.c, aes.c, nrf24.c) together with
proofs about the behaviour of the embedded functions.

Hardware port registers are modelled as explicit state.  Every call
that has an externally observable effect (pin claims, error
registration, register writes, busy-wait delays, collaborator calls)
additionally appends a ghost event to a trace, so that ordering and
frame properties can be stated.  Repository code that is not part of
the four source files (the io_map pin ledger, the error sink, the
debounce collaborator, the AES library) is modelled from the spec at
its interface boundary; each such definition says so in its doc comment.
-/

namespace Keyplus

/-- Modelled from the spec: the four wiring topologies of the Scan
Plan (spec section 3).  The numeric values of these mode constants come
from a header that is not under src; only their distinctness is used by
any proof below. -/
def MATRIX_SCANNER_MODE_COL_ROW : Nat := 1

/-- Modelled from the spec: see MATRIX_SCANNER_MODE_COL_ROW. -/
def MATRIX_SCANNER_MODE_ROW_COL : Nat := 2

/-- Modelled from the spec: see MATRIX_SCANNER_MODE_COL_ROW. -/
def MATRIX_SCANNER_MODE_PIN_GND : Nat := 3

/-- Modelled from the spec: see MATRIX_SCANNER_MODE_COL_ROW. -/
def MATRIX_SCANNER_MODE_PIN_VCC : Nat := 4

/-- Number of io ports on the default board: board_config.h lists the
usable pins of ports A, B, C, D, E and R, numbered 0..5 here.  The
source guards a seventh port F behind IO_PORT_COUNT at least 7, which
default boards do not have. -/
def IO_PORT_COUNT : Nat := 6

/-- Pins per port on the xmega. -/
def IO_PORT_SIZE : Nat := 8

/-- The INT_DIV_ROUND_UP macro of the source. -/
def intDivRoundUp (a b : Nat) : Nat := (a + b - 1) / b

/-- XMEGA PINnCTRL encoding, output/pull configuration field PULLDOWN
(bits 3..5 hold the OPC field; PULLDOWN is value 2). -/
def PORT_OPC_PULLDOWN_gc : Nat := 0x10

/-- XMEGA PINnCTRL encoding, OPC field PULLUP (value 3). -/
def PORT_OPC_PULLUP_gc : Nat := 0x18

/-- XMEGA PINnCTRL encoding, OPC field WIREDOR (value 4). -/
def PORT_OPC_WIREDOR_gc : Nat := 0x20

/-- XMEGA PINnCTRL encoding, OPC field WIREDAND (value 5). -/
def PORT_OPC_WIREDAND_gc : Nat := 0x28

/-- XMEGA PINnCTRL encoding, invert input/output bit. -/
def PORT_INVEN_bm : Nat := 0x40

/-- XMEGA PINnCTRL encoding, input sense configuration BOTHEDGES
(bits 0..2, value 0). -/
def PORT_ISC_BOTHEDGES_gc : Nat := 0x00

/-- XMEGA INTCTRL encoding: mask of the INT0 level field. -/
def PORT_INT0LVL_gm : Nat := 0x03

/-- XMEGA INTCTRL encoding: low priority INT0 level. -/
def PORT_INT0LVL_LO_gc : Nat := 0x01

/-- XMEGA INTCTRL encoding: INT0 disabled. -/
def PORT_INT0LVL_OFF_gc : Nat := 0x00

/-- Error kinds raised by the embedded sources.  Modelled from the
spec (section 7); the numeric codes live in a header outside src. -/
inductive ErrorCode where
  | matrixPinsConfigTooLarge
  | pinMappingConflict
  | unsupportedScanMode
  | nrf24BadSpiConnection
  deriving DecidableEq, Repr

/-- Ghost events recorded by the embedding: pin-claim calls, error
registration, hardware register writes, busy-wait delays and
collaborator calls. -/
inductive Effect where
  | claim (port mask : Nat)
  | error (e : ErrorCode)
  | dirclr (port mask : Nat)
  | dirset (port mask : Nat)
  | outset (port mask : Nat)
  | outclr (port mask : Nat)
  | int0maskSet (port mask : Nat)
  | mpcmaskSet (mask : Nat)
  | pinctrlWrite (port mask val : Nat)
  | setIntLvl (port lvl : Nat)
  | clearIntFlag (port : Nat)
  | clearTriggered
  | delay (slow : Bool) (cycles : Nat)
  | selectRow (r : Nat)
  | unselectRow (r : Nat)
  | sample (r : Nat)
  | debounceCall (r : Nat)
  | initScannerUtils
  | spiIntCtrlWrite (val : Nat)
  | spiCtrlWrite (val : Nat)
  | spiSend (b : Nat)
  deriving DecidableEq, Repr

/-- The matrix_scan_plan_t configuration record (all fields are 8-bit
in the source; the embedding uses Nat and adds hypotheses where the
8-bit width matters). -/
structure ScanPlan where
  mode : Nat
  rows : Nat
  cols : Nat
  max_col_pin_num : Nat
  parasitic_discharge_delay_idle : Nat
  parasitic_discharge_delay_debouncing : Nat
  deriving DecidableEq, Repr

/-- The all-zero plan produced by the memset in matrix_scanner_init. -/
def ScanPlan.zero : ScanPlan := ⟨0, 0, 0, 0, 0, 0⟩

/-- Registers of one xmega io port that the sources touch.  Only the
INT0 interrupt flag bit of INTFLAGS is modelled (as a Bool), since the
sources only ever manipulate that flag. -/
structure PortRegs where
  dir : Nat
  out : Nat
  inp : Nat
  int0mask : Nat
  intctrl : Nat
  intflag0 : Bool
  pinctrl : Nat → Nat

/-- Reset state of a port. -/
def PortRegs.boot : PortRegs :=
  { dir := 0, out := 0, inp := 0, int0mask := 0, intctrl := 0,
    intflag0 := false, pinctrl := fun _ => 0 }

/-- Whole-machine state for the matrix scanner translation:
the global scan plan, the slow-clock flag, the io ports, the PORTCFG
MPCMASK register, the pin ledger (spec section 4.1), the error sink,
the static variables of matrix_scanner.c, and the ghost trace. -/
structure Machine where
  scanPlan : ScanPlan
  slowClockMode : Bool
  ports : Nat → PortRegs
  mpcmask : Nat
  claimed : Nat → Nat
  errors : List ErrorCode
  hasScanIrqTriggered : Bool
  sColMasks : Nat → Nat
  sRowPortMasks : Nat → Nat
  sRowPinMask : Nat → Nat
  sRowPorts : Nat → Nat
  sBytesPerRow : Nat
  sDelayIdle : Nat
  sDelayDebouncing : Nat
  trace : List Effect

/-- Compile-time and board configuration that lives in headers outside
src: the row bound, the highest addressable pin, the slow clock
frequency and the io_map pin assignment tables. -/
structure Env where
  maxNumRows : Nat
  ioPortMaxPinNum : Nat
  clockSpeedSlow : Nat
  colPinOf : Nat → Nat
  rowPinOf : Nat → Nat

/-- Update one entry of a Nat-indexed table. -/
def updFn (f : Nat → Nat) (i v : Nat) : Nat → Nat :=
  fun j => if j = i then v else f j

/-- Bitwise and-not restricted to 8 bits, used for the register
clear operations (DIRCLR, OUTCLR and read-modify-write masks). -/
def andNot8 (x m : Nat) : Nat := x &&& (255 ^^^ (m &&& 255))

/-- Update the registers of one port. -/
def updatePort (s : Machine) (p : Nat) (f : PortRegs → PortRegs) : Machine :=
  { s with ports := fun q => if q = p then f (s.ports q) else s.ports q }

/-- Append ghost events to the trace. -/
def emit (s : Machine) (es : List Effect) : Machine :=
  { s with trace := s.trace ++ es }

/-- Apply a function to the OUT register of one port. -/
def portModifyOut (s : Machine) (p : Nat) (f : Nat → Nat) : Machine :=
  updatePort s p (fun r => { r with out := f r.out })

/-- Modelled from the spec (section 6): register_error, the
process-wide error sink.  The sink records the error kind; the
embedding keeps the list of registered errors in order. -/
def register_error (s : Machine) (e : ErrorCode) : Machine :=
  { s with errors := s.errors ++ [e], trace := s.trace ++ [.error e] }

/-- Modelled from the spec (section 4.1): io_map_claim_pins, the pin
resource ledger.  Claiming sets the requested bits in the ledger entry
of the port only if none of them are already set; otherwise it fails
without mutating the ledger.  Like the C function it returns nonzero
(here true) on conflict. -/
def io_map_claim_pins (s : Machine) (p m : Nat) : Bool × Machine :=
  if s.claimed p &&& m ≠ 0 then
    (true, { s with trace := s.trace ++ [.claim p m] })
  else
    (false, { s with claimed := updFn s.claimed p (s.claimed p ||| m),
                     trace := s.trace ++ [.claim p m] })

/-- DIRCLR write: clear the given direction bits (pin becomes input). -/
def op_dirclr (s : Machine) (p m : Nat) : Machine :=
  emit (updatePort s p (fun r => { r with dir := andNot8 r.dir m })) [.dirclr p m]

/-- DIRSET write: set the given direction bits (pin becomes output). -/
def op_dirset (s : Machine) (p m : Nat) : Machine :=
  emit (updatePort s p (fun r => { r with dir := r.dir ||| m })) [.dirset p m]

/-- OUTSET write. -/
def op_outset (s : Machine) (p m : Nat) : Machine :=
  emit (portModifyOut s p (fun o => o ||| m)) [.outset p m]

/-- OUTCLR write. -/
def op_outclr (s : Machine) (p m : Nat) : Machine :=
  emit (portModifyOut s p (fun o => andNot8 o m)) [.outclr p m]

/-- INT0MASK or-assign. -/
def op_int0mask_set (s : Machine) (p m : Nat) : Machine :=
  emit (updatePort s p (fun r => { r with int0mask := r.int0mask ||| m }))
    [.int0maskSet p m]

/-- PORTCFG.MPCMASK write. -/
def op_set_mpcmask (s : Machine) (m : Nat) : Machine :=
  emit { s with mpcmask := m } [.mpcmaskSet m]

/-- PIN0CTRL write under the MPCMASK mechanism: the value is written
to the PINnCTRL register of every pin selected by MPCMASK, and MPCMASK
clears itself.  When MPCMASK is zero the write lands on pin 0 alone,
exactly as the comment in setup_columns describes. -/
def op_pin0ctrl_write (s : Machine) (p v : Nat) : Machine :=
  let m := if s.mpcmask = 0 then 1 else s.mpcmask
  let s1 := updatePort s p
    (fun r => { r with pinctrl := fun b => if m.testBit b then v else r.pinctrl b })
  emit { s1 with mpcmask := 0 } [.pinctrlWrite p m v]

/-- INTCTRL read-modify-write of the INT0 level field. -/
def op_set_intlvl (s : Machine) (p lvl : Nat) : Machine :=
  emit (updatePort s p
    (fun r => { r with intctrl := andNot8 r.intctrl PORT_INT0LVL_gm ||| lvl }))
    [.setIntLvl p lvl]

/-- INTFLAGS or-assign of PORT_INT0IF_bm: the flag register is
write-one-to-clear, so this clears the INT0 flag. -/
def op_clear_intflag (s : Machine) (p : Nat) : Machine :=
  emit (updatePort s p (fun r => { r with intflag0 := false })) [.clearIntFlag p]

/-- First loop of setup_columns: accumulate the per-port column masks
from the io_map column pin table. -/
def setup_columns_masks (env : Env) : Machine → List Nat → Machine
  | s, [] => s
  | s, i :: rest =>
      let pin := env.colPinOf i
      let p := pin / IO_PORT_SIZE
      let b := pin % IO_PORT_SIZE
      let s := { s with sColMasks := updFn s.sColMasks p (s.sColMasks p ||| (1 <<< b)) }
      setup_columns_masks env s rest

/-- Second loop of setup_columns: for each port with a nonempty column
mask, claim the pins, make them inputs, enable INT0 on them, and write
the PINnCTRL value that the scan mode demands.  A failed claim or an
unrecognized mode registers an error and returns early. -/
def setup_columns_ports (env : Env) : Machine → List Nat → Machine
  | s, [] => s
  | s, p :: rest =>
      let colMask := s.sColMasks p
      if colMask = 0 then setup_columns_ports env s rest
      else
        let c := io_map_claim_pins s p colMask
        if c.1 then register_error c.2 .pinMappingConflict
        else
          let s := op_dirclr c.2 p colMask
          let s := op_int0mask_set s p colMask
          let s := op_set_mpcmask s colMask
          if s.scanPlan.mode = MATRIX_SCANNER_MODE_ROW_COL ∨
             s.scanPlan.mode = MATRIX_SCANNER_MODE_PIN_VCC then
            setup_columns_ports env
              (op_pin0ctrl_write s p (PORT_OPC_PULLDOWN_gc ||| PORT_ISC_BOTHEDGES_gc)) rest
          else if s.scanPlan.mode = MATRIX_SCANNER_MODE_COL_ROW ∨
                  s.scanPlan.mode = MATRIX_SCANNER_MODE_PIN_GND then
            setup_columns_ports env
              (op_pin0ctrl_write s p
                (PORT_INVEN_bm ||| PORT_OPC_PULLUP_gc ||| PORT_ISC_BOTHEDGES_gc)) rest
          else
            register_error s .unsupportedScanMode

/-- The setup_columns function of matrix_scanner.c. -/
def setup_columns (env : Env) (s : Machine) : Machine :=
  let s := setup_columns_masks env s (List.range s.scanPlan.cols)
  let maxPortNum := intDivRoundUp (s.scanPlan.max_col_pin_num + 1) IO_PORT_SIZE
  setup_columns_ports env s (List.range maxPortNum)

/-- Loop body of setup_rows: resolve each row pin, claim it, record
the row descriptor, make it an output driven high, and write the
PINnCTRL drive configuration the scan mode demands. -/
def setup_rows_loop (env : Env) : Machine → List Nat → Machine
  | s, [] => s
  | s, r :: rest =>
      let pin := env.rowPinOf r
      let p := pin / IO_PORT_SIZE
      let b := pin % IO_PORT_SIZE
      let mask := 1 <<< b
      let c := io_map_claim_pins s p mask
      if c.1 then register_error c.2 .pinMappingConflict
      else
        let s := c.2
        let s := { s with
          sRowPortMasks := updFn s.sRowPortMasks p (s.sRowPortMasks p ||| mask),
          sRowPinMask := updFn s.sRowPinMask r mask,
          sRowPorts := updFn s.sRowPorts r p }
        let s := op_dirset s p mask
        let s := op_outset s p mask
        let s := op_set_mpcmask s mask
        if s.scanPlan.mode = MATRIX_SCANNER_MODE_ROW_COL ∨
           s.scanPlan.mode = MATRIX_SCANNER_MODE_PIN_VCC then
          setup_rows_loop env
            (op_pin0ctrl_write s p (PORT_INVEN_bm ||| PORT_OPC_WIREDOR_gc)) rest
        else if s.scanPlan.mode = MATRIX_SCANNER_MODE_COL_ROW ∨
                s.scanPlan.mode = MATRIX_SCANNER_MODE_PIN_GND then
          setup_rows_loop env (op_pin0ctrl_write s p PORT_OPC_WIREDAND_gc) rest
        else
          register_error s .unsupportedScanMode

/-- The setup_rows function of matrix_scanner.c, including the memset
of the row port mask table. -/
def setup_rows (env : Env) (s : Machine) : Machine :=
  setup_rows_loop env { s with sRowPortMasks := fun _ => 0 }
    (List.range s.scanPlan.rows)

/-- The unselect_all_rows function: OUTSET of the row mask on every
port, which disconnects all rows. -/
def unselect_all_rows (s : Machine) : Machine :=
  let s := op_outset s 0 (s.sRowPortMasks 0)
  let s := op_outset s 1 (s.sRowPortMasks 1)
  let s := op_outset s 2 (s.sRowPortMasks 2)
  let s := op_outset s 3 (s.sRowPortMasks 3)
  let s := op_outset s 4 (s.sRowPortMasks 4)
  op_outset s 5 (s.sRowPortMasks 5)

/-- The select_all_rows function: OUTCLR of the row mask on every
port, which asserts every configured row. -/
def select_all_rows (s : Machine) : Machine :=
  let s := op_outclr s 0 (s.sRowPortMasks 0)
  let s := op_outclr s 1 (s.sRowPortMasks 1)
  let s := op_outclr s 2 (s.sRowPortMasks 2)
  let s := op_outclr s 3 (s.sRowPortMasks 3)
  let s := op_outclr s 4 (s.sRowPortMasks 4)
  op_outclr s 5 (s.sRowPortMasks 5)

/-- The matrix_has_active_row function: true when some column bit
reads active on any port while all rows are asserted. -/
def matrix_has_active_row (s : Machine) : Bool :=
  decide ((s.ports 0).inp &&& s.sColMasks 0 ≠ 0) ||
  decide ((s.ports 1).inp &&& s.sColMasks 1 ≠ 0) ||
  decide ((s.ports 2).inp &&& s.sColMasks 2 ≠ 0) ||
  decide ((s.ports 3).inp &&& s.sColMasks 3 ≠ 0) ||
  decide ((s.ports 4).inp &&& s.sColMasks 4 ≠ 0) ||
  decide ((s.ports 5).inp &&& s.sColMasks 5 ≠ 0)

/-- The select_row function: OUTCLR of the row pin on its port, which
asserts exactly that row.  The ghost event records the row index. -/
def select_row (s : Machine) (r : Nat) : Machine :=
  emit (portModifyOut s (s.sRowPorts r) (fun o => andNot8 o (s.sRowPinMask r)))
    [.selectRow r]

/-- The unselect_row function: OUTSET of the row pin on its port,
which disconnects exactly that row. -/
def unselect_row (s : Machine) (r : Nat) : Machine :=
  emit (portModifyOut s (s.sRowPorts r) (fun o => o ||| s.sRowPinMask r))
    [.unselectRow r]

/-- The matrix_scan_irq_clear_flags function: clear the INT0
interrupt flag on every port by or-assigning PORT_INT0IF_bm into the
write-one-to-clear INTFLAGS register. -/
def matrix_scan_irq_clear_flags (s : Machine) : Machine :=
  let s := op_clear_intflag s 0
  let s := op_clear_intflag s 1
  let s := op_clear_intflag s 2
  let s := op_clear_intflag s 3
  let s := op_clear_intflag s 4
  op_clear_intflag s 5

/-- The matrix_scan_irq_has_triggered accessor. -/
def matrix_scan_irq_has_triggered (s : Machine) : Bool :=
  s.hasScanIrqTriggered

/-- The matrix_scan_irq_clear function: reset the triggered flag. -/
def matrix_scan_irq_clear (s : Machine) : Machine :=
  emit { s with hasScanIrqTriggered := false } [.clearTriggered]

/-- The matrix_scan_irq_enable function: assert all rows, wait the
idle parasitic discharge delay (the source always uses the slow-clock
delay macro here), clear stale port interrupt flags, clear the
triggered flag, then enable INT0 at low priority on every port. -/
def matrix_scan_irq_enable (s : Machine) : Machine :=
  let s := select_all_rows s
  let s := emit s [.delay true s.sDelayIdle]
  let s := matrix_scan_irq_clear_flags s
  let s := matrix_scan_irq_clear s
  let s := op_set_intlvl s 0 PORT_INT0LVL_LO_gc
  let s := op_set_intlvl s 1 PORT_INT0LVL_LO_gc
  let s := op_set_intlvl s 2 PORT_INT0LVL_LO_gc
  let s := op_set_intlvl s 3 PORT_INT0LVL_LO_gc
  let s := op_set_intlvl s 4 PORT_INT0LVL_LO_gc
  op_set_intlvl s 5 PORT_INT0LVL_LO_gc

/-- The matrix_scan_irq_disable function: turn INT0 off on every
port, then release all rows. -/
def matrix_scan_irq_disable (s : Machine) : Machine :=
  let s := op_set_intlvl s 0 PORT_INT0LVL_OFF_gc
  let s := op_set_intlvl s 1 PORT_INT0LVL_OFF_gc
  let s := op_set_intlvl s 2 PORT_INT0LVL_OFF_gc
  let s := op_set_intlvl s 3 PORT_INT0LVL_OFF_gc
  let s := op_set_intlvl s 4 PORT_INT0LVL_OFF_gc
  let s := op_set_intlvl s 5 PORT_INT0LVL_OFF_gc
  unselect_all_rows s

/-- The matrix_scan_irq interrupt handler body, shared by the INT0
interrupt service routines of every port: clear the port interrupt
flags and set the process-wide triggered flag. -/
def matrix_scan_irq (s : Machine) : Machine :=
  let s := matrix_scan_irq_clear_flags s
  { s with hasScanIrqTriggered := true }

/-- The part of matrix_scanner_init that runs once the plan has
passed validation, up to but not including the delay scaling: set the
bytes-per-row count, set up rows for the row/column modes, set up
columns, disable the scan interrupt, release all rows and call the
common scanner utilities. -/
def matrix_scanner_init_body (env : Env) (s : Machine) : Machine :=
  let s := { s with
    sBytesPerRow := intDivRoundUp (s.scanPlan.max_col_pin_num + 1) IO_PORT_SIZE }
  let s := if s.scanPlan.mode = MATRIX_SCANNER_MODE_COL_ROW ∨
              s.scanPlan.mode = MATRIX_SCANNER_MODE_ROW_COL then
             setup_rows env s
           else s
  let s := setup_columns env s
  let s := matrix_scan_irq_disable s
  let s := unselect_all_rows s
  emit s [Effect.initScannerUtils]

/-- The matrix_scanner_init function of matrix_scanner.c: validate the
plan (zero it and register configuration-too-large on failure), run
the setup body, and derive the clock-scaled parasitic discharge
delays. -/
def matrix_scanner_init (env : Env) (s : Machine) : Machine :=
  if s.scanPlan.rows > env.maxNumRows ∨
     s.scanPlan.max_col_pin_num > env.ioPortMaxPinNum then
    register_error { s with scanPlan := ScanPlan.zero } .matrixPinsConfigTooLarge
  else
    let s := matrix_scanner_init_body env s
    if s.slowClockMode then
      let base_factor := (16000000 / 1000000) % 256
      let slow_factor := (env.clockSpeedSlow / 1000000) % 256
      { s with
        sDelayIdle :=
          ((s.scanPlan.parasitic_discharge_delay_idle * slow_factor) % 65536
            / base_factor) % 256,
        sDelayDebouncing :=
          ((s.scanPlan.parasitic_discharge_delay_debouncing * slow_factor) % 65536
            / base_factor) % 256 }
    else
      { s with
        sDelayIdle := s.scanPlan.parasitic_discharge_delay_idle,
        sDelayDebouncing := s.scanPlan.parasitic_discharge_delay_debouncing }

/-- Modelled from the spec (section 6): the debounce collaborator
interface.  The step function consumes a row index, the raw per-port
sample and the bytes-per-row count, returns the changed verdict and
its next internal state; numKeysDebouncing is the query for the count
of switches currently mid-debounce. -/
structure Debouncer (σ : Type) where
  step : σ → Nat → List Nat → Nat → Bool × σ
  numKeysDebouncing : σ → Nat

/-- The raw column sample built at the top of scan_row: for each of
the six ports, IN masked with the column mask of that port. -/
def sampleOf (s : Machine) : List Nat :=
  [(s.ports 0).inp &&& s.sColMasks 0,
   (s.ports 1).inp &&& s.sColMasks 1,
   (s.ports 2).inp &&& s.sColMasks 2,
   (s.ports 3).inp &&& s.sColMasks 3,
   (s.ports 4).inp &&& s.sColMasks 4,
   (s.ports 5).inp &&& s.sColMasks 5]

/-- The scan_row function: sample the columns and hand the sample to
the debounce collaborator for the given row. -/
def scan_row {σ : Type} (db : Debouncer σ) (s : Machine) (d : σ) (r : Nat) :
    Bool × Machine × σ :=
  let sample := sampleOf s
  let s := emit s [.sample r, .debounceCall r]
  let out := db.step d r sample s.sBytesPerRow
  (out.1, s, out.2)

/-- The row loop of matrix_scan_row_col_mode: for each remaining row,
assert it, busy-wait the settle delay (debouncing length when any key
anywhere is mid-debounce, idle length otherwise), sample and debounce
the row, release it, and accumulate the changed verdicts. -/
def scanRowsLoop {σ : Type} (db : Debouncer σ) :
    Machine → σ → Bool → List Nat → Machine × σ × Bool
  | s, d, changed, [] => (s, d, changed)
  | s, d, changed, r :: rest =>
      let s := select_row s r
      let cyc := if db.numKeysDebouncing d ≠ 0 then s.sDelayDebouncing
                 else s.sDelayIdle
      let s := emit s [.delay s.slowClockMode cyc]
      let out := scan_row db s d r
      let s := unselect_row out.2.1 r
      scanRowsLoop db s out.2.2 (changed || out.1) rest

/-- The matrix_scan_row_col_mode function: run the row loop over rows
0 .. rows-1 starting from a false changed verdict. -/
def matrix_scan_row_col_mode {σ : Type} (db : Debouncer σ) (s : Machine) (d : σ) :
    Machine × σ × Bool :=
  scanRowsLoop db s d false (List.range s.scanPlan.rows)

/-- The matrix_scan_pin_mode function: sample the single synthetic
row 0 once. -/
def matrix_scan_pin_mode {σ : Type} (db : Debouncer σ) (s : Machine) (d : σ) :
    Machine × σ × Bool :=
  let out := scan_row db s d 0
  (out.2.1, out.2.2, out.1)

/-- The matrix_scan function: dispatch on the scan mode; unknown
modes fall through the switch and return false. -/
def matrix_scan {σ : Type} (db : Debouncer σ) (s : Machine) (d : σ) :
    Machine × σ × Bool :=
  if s.scanPlan.mode = MATRIX_SCANNER_MODE_COL_ROW ∨
     s.scanPlan.mode = MATRIX_SCANNER_MODE_ROW_COL then
    matrix_scan_row_col_mode db s d
  else if s.scanPlan.mode = MATRIX_SCANNER_MODE_PIN_GND ∨
          s.scanPlan.mode = MATRIX_SCANNER_MODE_PIN_VCC then
    matrix_scan_pin_mode db s d
  else
    (s, d, false)

/-- Decode the OPC field (bits 3..5) of a PINnCTRL value. -/
def opcOf (v : Nat) : Nat := (v >>> 3) &&& 7

/-- Decode the input sense configuration field (bits 0..2). -/
def iscOf (v : Nat) : Nat := v &&& 7

/-- Decode the INVEN bit. -/
def invenOf (v : Nat) : Bool := v.testBit 6

/-- Pull configuration decoded as pull-down. -/
@[reducible] def isPullDown (v : Nat) : Prop := opcOf v = 2

/-- Pull configuration decoded as pull-up. -/
@[reducible] def isPullUp (v : Nat) : Prop := opcOf v = 3

/-- Both-edge interrupt sensitivity decoded from the ISC field. -/
@[reducible] def isBothEdges (v : Nat) : Prop := iscOf v = 0

/-- The OUT-register value whose write disconnects an output pin with
the given PINnCTRL configuration, when the configuration is one of the
open-drain style drives.  Per the comments in setup_rows, a Wired-OR
pin disconnects when its pad level is 0 and a Wired-AND pin when its
pad level is 1; the INVEN bit inverts the pad level relative to the
OUT register bit. -/
def disconnectWriteValue (v : Nat) : Option Nat :=
  let pad := if opcOf v = 4 then some 0
             else if opcOf v = 5 then some 1
             else none
  pad.map (fun b => if invenOf v then 1 - b else b)

/-- Modelled from the spec (section 6): the cipher collaborator, a
call-through to an external block cipher library with an opaque
context type. -/
structure AesLib (Ctx : Type) where
  aes128_init : List Nat → Ctx → Ctx
  aes128_enc : List Nat → Ctx → List Nat
  aes128_dec : List Nat → Ctx → List Nat

/-- The module-static aes_ctx of aes.c. -/
structure AesState (Ctx : Type) where
  aes_ctx : Ctx

/-- The aes_key_init function of aes.c: initialize the context from
the encrypt key; the decrypt key argument is accepted but unused. -/
def aes_key_init {Ctx : Type} (lib : AesLib Ctx) (ekey _dkey : List Nat)
    (s : AesState Ctx) : AesState Ctx :=
  { s with aes_ctx := lib.aes128_init ekey s.aes_ctx }

/-- The aes_encrypt function of aes.c. -/
def aes_encrypt {Ctx : Type} (lib : AesLib Ctx) (block : List Nat)
    (s : AesState Ctx) : List Nat :=
  lib.aes128_enc block s.aes_ctx

/-- The aes_decrypt function of aes.c. -/
def aes_decrypt {Ctx : Type} (lib : AesLib Ctx) (block : List Nat)
    (s : AesState Ctx) : List Nat :=
  lib.aes128_dec block s.aes_ctx

/-- The SS, MOSI, MISO, SCK pin mask of nrf24.c. -/
def SPI_PIN_MASK : Nat := (1 <<< 4) ||| (1 <<< 5) ||| (1 <<< 6) ||| (1 <<< 7)

/-- The SPI port number: NRF24_SPI_PORT is PORTC, port number 2. -/
def NRF24_SPI_PORT_NUM : Nat := 2

/-- The NOP command byte of the nRF24 wire protocol, sent by the SPI
connection test.  Its value lives in a header outside src. -/
def NRF_NOP : Nat := 0xFF

/-- Board and header configuration consumed by nrf24.c: the CE and
IRQ pin locations, the computed SPI control settings, and an oracle
for the outcome of the SPI connection test (the polled hardware status
flag is outside the state this embedding tracks). -/
structure NrfEnv where
  cePortNum : Nat
  cePinMask : Nat
  irqPortNum : Nat
  irqPinMask : Nat
  spiSettings : Nat
  spiSettingsSlowClock : Nat
  spiOk : Bool

/-- State touched by nrf24_init: the module flag, the runtime rf
setting, the global slow clock flag, the error sink and pin ledger
shared with the scanner, the io ports, the SPI device registers, and
the ghost trace. -/
structure NrfState where
  inited : Bool
  rfDisabled : Bool
  slowClockMode : Bool
  criticalError : Bool
  errors : List ErrorCode
  claimed : Nat → Nat
  ports : Nat → PortRegs
  spiIntCtrl : Nat
  spiCtrl : Nat
  trace : List Effect

/-- Modelled from the spec (section 6): the error sink, as seen from
nrf24.c.  All three scanner-relevant error kinds are unrecoverable for
the boot cycle, so registering one also makes has_critical_error
report true. -/
def nrf_register_error (s : NrfState) (e : ErrorCode) : NrfState :=
  { s with errors := s.errors ++ [e], criticalError := true,
           trace := s.trace ++ [.error e] }

/-- Modelled from the spec (section 4.1): the pin ledger, as seen
from nrf24.c. -/
def nrf_claim_pins (s : NrfState) (p m : Nat) : Bool × NrfState :=
  if s.claimed p &&& m ≠ 0 then
    (true, { s with trace := s.trace ++ [.claim p m] })
  else
    (false, { s with claimed := updFn s.claimed p (s.claimed p ||| m),
                     trace := s.trace ++ [.claim p m] })

/-- Update one port of the nrf state. -/
def nrfUpdatePort (s : NrfState) (p : Nat) (f : PortRegs → PortRegs) : NrfState :=
  { s with ports := fun q => if q = p then f (s.ports q) else s.ports q }

/-- OUTSET write on the nrf state. -/
def nrf_outset (s : NrfState) (p m : Nat) : NrfState :=
  let s := nrfUpdatePort s p (fun r => { r with out := r.out ||| m })
  { s with trace := s.trace ++ [.outset p m] }

/-- OUTCLR write on the nrf state. -/
def nrf_outclr (s : NrfState) (p m : Nat) : NrfState :=
  let s := nrfUpdatePort s p (fun r => { r with out := andNot8 r.out m })
  { s with trace := s.trace ++ [.outclr p m] }

/-- DIRSET write on the nrf state. -/
def nrf_dirset (s : NrfState) (p m : Nat) : NrfState :=
  let s := nrfUpdatePort s p (fun r => { r with dir := r.dir ||| m })
  { s with trace := s.trace ++ [.dirset p m] }

/-- The spi_init function of nrf24.c: SS, MOSI and SCK become
outputs, SS is pulled high, SPI interrupts are disabled, and the SPI
control register is written with the clock-dependent settings.  The
drain loop at the end only reads the data register. -/
def spi_init (env : NrfEnv) (s : NrfState) : NrfState :=
  let s := nrf_dirset s NRF24_SPI_PORT_NUM ((1 <<< 4) ||| (1 <<< 5) ||| (1 <<< 7))
  let s := nrf_outset s NRF24_SPI_PORT_NUM (1 <<< 4)
  let s := { s with spiIntCtrl := 0, trace := s.trace ++ [Effect.spiIntCtrlWrite 0] }
  let ctrl := if s.slowClockMode then env.spiSettingsSlowClock else env.spiSettings
  { s with spiCtrl := ctrl, trace := s.trace ++ [Effect.spiCtrlWrite ctrl] }

/-- The nrf24_test_spi_connection function: send a NOP byte and poll
the status flag with a timeout; the outcome is supplied by the spiOk
oracle of the environment.  Returns nonzero (true) on error like the
C function. -/
def nrf24_test_spi_connection (env : NrfEnv) (s : NrfState) : Bool × NrfState :=
  (!env.spiOk, { s with trace := s.trace ++ [.spiSend NRF_NOP] })

/-- The nrf24_ce_init function: CE pin becomes an output. -/
def nrf24_ce_init (env : NrfEnv) (s : NrfState) : NrfState :=
  nrf_dirset s env.cePortNum env.cePinMask

/-- The nrf24_ce_set function. -/
def nrf24_ce_set (env : NrfEnv) (s : NrfState) (val : Nat) : NrfState :=
  if val ≠ 0 then nrf_outset s env.cePortNum env.cePinMask
  else nrf_outclr s env.cePortNum env.cePinMask

/-- The nrf24_init function of nrf24.c: return immediately when
already initialized or when the rf-disabled runtime setting is active;
otherwise mark the module initialized, claim the SPI pins (conflict
aborts), initialize the SPI peripheral, claim the CE and IRQ pins
(checked through has_critical_error), test the SPI connection, and
finally configure the CE pin low. -/
def nrf24_init (env : NrfEnv) (s : NrfState) : NrfState :=
  if s.inited || s.rfDisabled then s
  else
    let s := { s with inited := true }
    let c1 := nrf_claim_pins s NRF24_SPI_PORT_NUM SPI_PIN_MASK
    if c1.1 then nrf_register_error c1.2 ErrorCode.pinMappingConflict
    else
      let s := spi_init env c1.2
      let s := (nrf_claim_pins s env.cePortNum env.cePinMask).2
      let s := (nrf_claim_pins s env.irqPortNum env.irqPinMask).2
      if s.criticalError then nrf_register_error s ErrorCode.pinMappingConflict
      else
        let t := nrf24_test_spi_connection env s
        if t.1 then nrf_register_error t.2 ErrorCode.nrf24BadSpiConnection
        else
          let s := nrf24_ce_init env t.2
          nrf24_ce_set env s 0

/-!  Specification-side extraction helpers: replays of the collaborator
call sequence of the scan loop, and projections of the ghost trace. -/

/-- Replay of the changed verdicts returned by the successive debounce
collaborator calls that the scan loop performs: the sample and the
bytes-per-row argument are loop invariants, while the collaborator
state threads through. -/
def debounceResults {σ : Type} (db : Debouncer σ) (sample : List Nat) (bpr : Nat) :
    σ → List Nat → List Bool
  | _, [] => []
  | d, r :: rest =>
      (db.step d r sample bpr).1 ::
        debounceResults db sample bpr (db.step d r sample bpr).2 rest

/-- Replay of the collaborator state as it stands at the beginning of
each iteration of the scan loop. -/
def debounceStates {σ : Type} (db : Debouncer σ) (sample : List Nat) (bpr : Nat) :
    σ → List Nat → List σ
  | _, [] => []
  | d, r :: rest =>
      d :: debounceStates db sample bpr (db.step d r sample bpr).2 rest

/-- The exact ghost-event sequence one run of the scan loop appends. -/
def loopTraceSpec {σ : Type} (db : Debouncer σ) (sample : List Nat) (bpr : Nat)
    (slow : Bool) (dIdle dDeb : Nat) : σ → List Nat → List Effect
  | _, [] => []
  | d, r :: rest =>
      Effect.selectRow r ::
      Effect.delay slow (if db.numKeysDebouncing d ≠ 0 then dDeb else dIdle) ::
      Effect.sample r ::
      Effect.debounceCall r ::
      Effect.unselectRow r ::
      loopTraceSpec db sample bpr slow dIdle dDeb (db.step d r sample bpr).2 rest

/-- Row drive and sampling events, the projection of the trace that
the mutual-exclusion argument is about. -/
inductive RowEv where
  | sel (r : Nat)
  | samp (r : Nat)
  | unsel (r : Nat)
  deriving DecidableEq, Repr

/-- Project an effect to its row drive or sampling event, if any. -/
def rowEvent : Effect → Option RowEv
  | .selectRow r => some (.sel r)
  | .sample r => some (.samp r)
  | .unselectRow r => some (.unsel r)
  | _ => none

/-- Project an effect to the row index of a debounce collaborator
call, if any. -/
def debCallEvent : Effect → Option Nat
  | .debounceCall r => some r
  | _ => none

/-- Project an effect to a busy-wait delay, if any. -/
def delayEvent : Effect → Option (Bool × Nat)
  | .delay b c => some (b, c)
  | _ => none

/-- The canonical row event sequence of one scan cycle over the given
rows: assert, sample, fully release, then move to the next row. -/
def canonicalFrom : List Nat → List RowEv
  | [] => []
  | r :: rest => .sel r :: .samp r :: .unsel r :: canonicalFrom rest

/-- One step of the asserted-row bookkeeping: select pushes the row,
unselect removes it, sampling leaves it unchanged. -/
def assertedStep (acc : List Nat) : RowEv → List Nat
  | .sel r => r :: acc
  | .unsel r => acc.erase r
  | .samp _ => acc

/-- Rows asserted after a sequence of row events, starting from none. -/
def asserted (t : List RowEv) : List Nat :=
  t.foldl assertedStep []

/-!  Small preservation lemmas about the machine operations, used by
the symbolic proofs below. -/

@[simp] theorem emit_scanPlan (s : Machine) (es : List Effect) :
    (emit s es).scanPlan = s.scanPlan := rfl

@[simp] theorem emit_slowClockMode (s : Machine) (es : List Effect) :
    (emit s es).slowClockMode = s.slowClockMode := rfl

@[simp] theorem emit_ports (s : Machine) (es : List Effect) :
    (emit s es).ports = s.ports := rfl

@[simp] theorem emit_sColMasks (s : Machine) (es : List Effect) :
    (emit s es).sColMasks = s.sColMasks := rfl

@[simp] theorem emit_sRowPortMasks (s : Machine) (es : List Effect) :
    (emit s es).sRowPortMasks = s.sRowPortMasks := rfl

@[simp] theorem emit_sRowPorts (s : Machine) (es : List Effect) :
    (emit s es).sRowPorts = s.sRowPorts := rfl

@[simp] theorem emit_sRowPinMask (s : Machine) (es : List Effect) :
    (emit s es).sRowPinMask = s.sRowPinMask := rfl

@[simp] theorem emit_sBytesPerRow (s : Machine) (es : List Effect) :
    (emit s es).sBytesPerRow = s.sBytesPerRow := rfl

@[simp] theorem emit_sDelayIdle (s : Machine) (es : List Effect) :
    (emit s es).sDelayIdle = s.sDelayIdle := rfl

@[simp] theorem emit_sDelayDebouncing (s : Machine) (es : List Effect) :
    (emit s es).sDelayDebouncing = s.sDelayDebouncing := rfl

@[simp] theorem emit_errors (s : Machine) (es : List Effect) :
    (emit s es).errors = s.errors := rfl

@[simp] theorem emit_claimed (s : Machine) (es : List Effect) :
    (emit s es).claimed = s.claimed := rfl

@[simp] theorem emit_mpcmask (s : Machine) (es : List Effect) :
    (emit s es).mpcmask = s.mpcmask := rfl

@[simp] theorem emit_hasScanIrqTriggered (s : Machine) (es : List Effect) :
    (emit s es).hasScanIrqTriggered = s.hasScanIrqTriggered := rfl

@[simp] theorem emit_trace (s : Machine) (es : List Effect) :
    (emit s es).trace = s.trace ++ es := rfl

@[simp] theorem updatePort_scanPlan (s : Machine) (p : Nat) (f : PortRegs → PortRegs) :
    (updatePort s p f).scanPlan = s.scanPlan := rfl

@[simp] theorem updatePort_slowClockMode (s : Machine) (p : Nat) (f : PortRegs → PortRegs) :
    (updatePort s p f).slowClockMode = s.slowClockMode := rfl

@[simp] theorem updatePort_sColMasks (s : Machine) (p : Nat) (f : PortRegs → PortRegs) :
    (updatePort s p f).sColMasks = s.sColMasks := rfl

@[simp] theorem updatePort_sRowPortMasks (s : Machine) (p : Nat) (f : PortRegs → PortRegs) :
    (updatePort s p f).sRowPortMasks = s.sRowPortMasks := rfl

@[simp] theorem updatePort_sRowPorts (s : Machine) (p : Nat) (f : PortRegs → PortRegs) :
    (updatePort s p f).sRowPorts = s.sRowPorts := rfl

@[simp] theorem updatePort_sRowPinMask (s : Machine) (p : Nat) (f : PortRegs → PortRegs) :
    (updatePort s p f).sRowPinMask = s.sRowPinMask := rfl

@[simp] theorem updatePort_sBytesPerRow (s : Machine) (p : Nat) (f : PortRegs → PortRegs) :
    (updatePort s p f).sBytesPerRow = s.sBytesPerRow := rfl

@[simp] theorem updatePort_sDelayIdle (s : Machine) (p : Nat) (f : PortRegs → PortRegs) :
    (updatePort s p f).sDelayIdle = s.sDelayIdle := rfl

@[simp] theorem updatePort_sDelayDebouncing (s : Machine) (p : Nat) (f : PortRegs → PortRegs) :
    (updatePort s p f).sDelayDebouncing = s.sDelayDebouncing := rfl

@[simp] theorem updatePort_errors (s : Machine) (p : Nat) (f : PortRegs → PortRegs) :
    (updatePort s p f).errors = s.errors := rfl

@[simp] theorem updatePort_claimed (s : Machine) (p : Nat) (f : PortRegs → PortRegs) :
    (updatePort s p f).claimed = s.claimed := rfl

@[simp] theorem updatePort_mpcmask (s : Machine) (p : Nat) (f : PortRegs → PortRegs) :
    (updatePort s p f).mpcmask = s.mpcmask := rfl

@[simp] theorem updatePort_hasScanIrqTriggered (s : Machine) (p : Nat) (f : PortRegs → PortRegs) :
    (updatePort s p f).hasScanIrqTriggered = s.hasScanIrqTriggered := rfl

@[simp] theorem updatePort_trace (s : Machine) (p : Nat) (f : PortRegs → PortRegs) :
    (updatePort s p f).trace = s.trace := rfl

@[simp] theorem updatePort_ports (s : Machine) (p : Nat) (f : PortRegs → PortRegs)
    (q : Nat) :
    (updatePort s p f).ports q = if q = p then f (s.ports q) else s.ports q := rfl

@[simp] theorem portModifyOut_scanPlan (s : Machine) (p : Nat) (f : Nat → Nat) :
    (portModifyOut s p f).scanPlan = s.scanPlan := rfl

@[simp] theorem portModifyOut_slowClockMode (s : Machine) (p : Nat) (f : Nat → Nat) :
    (portModifyOut s p f).slowClockMode = s.slowClockMode := rfl

@[simp] theorem portModifyOut_sColMasks (s : Machine) (p : Nat) (f : Nat → Nat) :
    (portModifyOut s p f).sColMasks = s.sColMasks := rfl

@[simp] theorem portModifyOut_sRowPortMasks (s : Machine) (p : Nat) (f : Nat → Nat) :
    (portModifyOut s p f).sRowPortMasks = s.sRowPortMasks := rfl

@[simp] theorem portModifyOut_sRowPorts (s : Machine) (p : Nat) (f : Nat → Nat) :
    (portModifyOut s p f).sRowPorts = s.sRowPorts := rfl

@[simp] theorem portModifyOut_sRowPinMask (s : Machine) (p : Nat) (f : Nat → Nat) :
    (portModifyOut s p f).sRowPinMask = s.sRowPinMask := rfl

@[simp] theorem portModifyOut_sBytesPerRow (s : Machine) (p : Nat) (f : Nat → Nat) :
    (portModifyOut s p f).sBytesPerRow = s.sBytesPerRow := rfl

@[simp] theorem portModifyOut_sDelayIdle (s : Machine) (p : Nat) (f : Nat → Nat) :
    (portModifyOut s p f).sDelayIdle = s.sDelayIdle := rfl

@[simp] theorem portModifyOut_sDelayDebouncing (s : Machine) (p : Nat) (f : Nat → Nat) :
    (portModifyOut s p f).sDelayDebouncing = s.sDelayDebouncing := rfl

@[simp] theorem portModifyOut_errors (s : Machine) (p : Nat) (f : Nat → Nat) :
    (portModifyOut s p f).errors = s.errors := rfl

@[simp] theorem portModifyOut_claimed (s : Machine) (p : Nat) (f : Nat → Nat) :
    (portModifyOut s p f).claimed = s.claimed := rfl

@[simp] theorem portModifyOut_mpcmask (s : Machine) (p : Nat) (f : Nat → Nat) :
    (portModifyOut s p f).mpcmask = s.mpcmask := rfl

@[simp] theorem portModifyOut_hasScanIrqTriggered (s : Machine) (p : Nat) (f : Nat → Nat) :
    (portModifyOut s p f).hasScanIrqTriggered = s.hasScanIrqTriggered := rfl

@[simp] theorem portModifyOut_trace (s : Machine) (p : Nat) (f : Nat → Nat) :
    (portModifyOut s p f).trace = s.trace := rfl

@[simp] theorem portModifyOut_inp (s : Machine) (p : Nat) (f : Nat → Nat) (q : Nat) :
    ((portModifyOut s p f).ports q).inp = (s.ports q).inp := by
  unfold portModifyOut
  by_cases h : q = p <;> simp [h]

@[simp] theorem sampleOf_emit (s : Machine) (es : List Effect) :
    sampleOf (emit s es) = sampleOf s := rfl

@[simp] theorem sampleOf_portModifyOut (s : Machine) (p : Nat) (f : Nat → Nat) :
    sampleOf (portModifyOut s p f) = sampleOf s := by
  simp only [sampleOf, portModifyOut_inp]
  rfl

/-!  The master lemma about the scan loop: its trace extension, final
changed verdict and final collaborator state are exactly the replays
defined above. -/

theorem scanRowsLoop_run {σ : Type} (db : Debouncer σ) :
    ∀ (rows : List Nat) (s : Machine) (d : σ) (c : Bool),
      (scanRowsLoop db s d c rows).1.trace
          = s.trace ++ loopTraceSpec db (sampleOf s) s.sBytesPerRow
              s.slowClockMode s.sDelayIdle s.sDelayDebouncing d rows
      ∧ (scanRowsLoop db s d c rows).2.2
          = (c || (debounceResults db (sampleOf s) s.sBytesPerRow d rows).any id) := by
  intro rows
  induction rows with
  | nil =>
    intro s d c
    simp [scanRowsLoop, loopTraceSpec, debounceResults]
  | cons r rest ih =>
    intro s d c
    simp only [scanRowsLoop, scan_row]
    constructor
    · rw [(ih _ _ _).1]
      simp [select_row, unselect_row, loopTraceSpec]
    · rw [(ih _ _ _).2]
      simp [select_row, unselect_row, debounceResults, Bool.or_assoc]

theorem rowEvents_loopTraceSpec {σ : Type} (db : Debouncer σ) (sample : List Nat)
    (bpr : Nat) (slow : Bool) (di dd : Nat) :
    ∀ (rows : List Nat) (d : σ),
      (loopTraceSpec db sample bpr slow di dd d rows).filterMap rowEvent
        = canonicalFrom rows := by
  intro rows
  induction rows with
  | nil => intro d; rfl
  | cons r rest ih =>
    intro d
    simp [loopTraceSpec, canonicalFrom, rowEvent, ih]

theorem debCalls_loopTraceSpec {σ : Type} (db : Debouncer σ) (sample : List Nat)
    (bpr : Nat) (slow : Bool) (di dd : Nat) :
    ∀ (rows : List Nat) (d : σ),
      (loopTraceSpec db sample bpr slow di dd d rows).filterMap debCallEvent = rows := by
  intro rows
  induction rows with
  | nil => intro d; rfl
  | cons r rest ih =>
    intro d
    simp [loopTraceSpec, debCallEvent, ih]

theorem delays_loopTraceSpec {σ : Type} (db : Debouncer σ) (sample : List Nat)
    (bpr : Nat) (slow : Bool) (di dd : Nat) :
    ∀ (rows : List Nat) (d : σ),
      (loopTraceSpec db sample bpr slow di dd d rows).filterMap delayEvent
        = (rows.zip (debounceStates db sample bpr d rows)).map
            (fun pr => (slow, if db.numKeysDebouncing pr.2 ≠ 0 then dd else di)) := by
  intro rows
  induction rows with
  | nil => intro d; rfl
  | cons r rest ih =>
    intro d
    simp [loopTraceSpec, delayEvent, debounceStates, ih]

theorem canonicalFrom_split :
    ∀ (rs : List Nat) (t1 : List RowEv) (r : Nat) (t2 : List RowEv),
      canonicalFrom rs = t1 ++ RowEv.samp r :: t2 → asserted t1 = [r] := by
  intro rs
  induction rs with
  | nil =>
    intro t1 r t2 h
    rcases t1 with _ | ⟨a, t1a⟩ <;> simp [canonicalFrom] at h
  | cons q rest ih =>
    intro t1 r t2 h
    rcases t1 with _ | ⟨a, _ | ⟨b, _ | ⟨c, t1c⟩⟩⟩
    · simp [canonicalFrom] at h
    · simp [canonicalFrom] at h
      obtain ⟨ha, hqr, -⟩ := h
      subst ha
      subst hqr
      rfl
    · simp [canonicalFrom] at h
    · simp only [canonicalFrom, List.cons_append, List.cons.injEq] at h
      obtain ⟨ha, hb, hc, hrest⟩ := h
      subst ha
      subst hb
      subst hc
      have htail := ih t1c r t2 hrest
      simp [asserted, assertedStep, List.erase_cons_head] at htail ⊢
      exact htail

/-!  Shared concrete fixtures used by the closed instances below. -/

/-- The reset machine state: all registers, tables and flags zero. -/
def bootMachine : Machine :=
  { scanPlan := ScanPlan.zero, slowClockMode := false,
    ports := fun _ => PortRegs.boot, mpcmask := 0, claimed := fun _ => 0,
    errors := [], hasScanIrqTriggered := false, sColMasks := fun _ => 0,
    sRowPortMasks := fun _ => 0, sRowPinMask := fun _ => 0,
    sRowPorts := fun _ => 0, sBytesPerRow := 0, sDelayIdle := 0,
    sDelayDebouncing := 0, trace := [] }

/-- A trivial debounce collaborator with unit state, used to
instantiate the universally quantified scan theorems. -/
def dbNone : Debouncer Unit :=
  { step := fun _ _ _ _ => (false, ()), numKeysDebouncing := fun _ => 0 }

/-- A machine configured for a two-row ROW_COL scan, rows on port 2
pins 0 and 1. -/
def scanFixture : Machine :=
  { bootMachine with
    scanPlan := { ScanPlan.zero with mode := MATRIX_SCANNER_MODE_ROW_COL, rows := 2 },
    sRowPorts := fun _ => 2,
    sRowPinMask := fun r => 1 <<< r,
    sDelayIdle := 40, sDelayDebouncing := 100 }

/-- A machine configured for the PIN_GND pin-scan mode. -/
def pinFixture : Machine :=
  { bootMachine with
    scanPlan := { ScanPlan.zero with mode := MATRIX_SCANNER_MODE_PIN_GND } }

theorem matrix_scan_rowcol {σ : Type} (db : Debouncer σ) (s : Machine) (d : σ)
    (h : s.scanPlan.mode = MATRIX_SCANNER_MODE_ROW_COL ∨
         s.scanPlan.mode = MATRIX_SCANNER_MODE_COL_ROW) :
    matrix_scan db s d = matrix_scan_row_col_mode db s d := by
  unfold matrix_scan
  rcases h with h | h <;>
    simp [h, MATRIX_SCANNER_MODE_ROW_COL, MATRIX_SCANNER_MODE_COL_ROW]

theorem matrix_scan_pin {σ : Type} (db : Debouncer σ) (s : Machine) (d : σ)
    (h : s.scanPlan.mode = MATRIX_SCANNER_MODE_PIN_GND ∨
         s.scanPlan.mode = MATRIX_SCANNER_MODE_PIN_VCC) :
    matrix_scan db s d = matrix_scan_pin_mode db s d := by
  unfold matrix_scan
  rcases h with h | h <;>
    simp [h, MATRIX_SCANNER_MODE_ROW_COL, MATRIX_SCANNER_MODE_COL_ROW,
      MATRIX_SCANNER_MODE_PIN_GND, MATRIX_SCANNER_MODE_PIN_VCC]

/-- C4: during one full scan cycle in ROW_COL or COL_ROW mode with at
least 2 rows, the row events of the cycle are exactly assert row r,
sample row r, release row r, for r = 0 .. rows-1 in ascending order
(so each row is fully released before the next is asserted), and at
every sampling instant the sampled row is the only asserted row, so no
two distinct rows are ever simultaneously asserted. -/
theorem c4_row_mutual_exclusion {σ : Type} (db : Debouncer σ) (s : Machine) (d : σ)
    (hmode : s.scanPlan.mode = MATRIX_SCANNER_MODE_ROW_COL ∨
             s.scanPlan.mode = MATRIX_SCANNER_MODE_COL_ROW)
    (_hrows : 2 ≤ s.scanPlan.rows) :
    ((matrix_scan db s d).1.trace.drop s.trace.length).filterMap rowEvent
        = canonicalFrom (List.range s.scanPlan.rows)
    ∧ ∀ t1 r t2,
        ((matrix_scan db s d).1.trace.drop s.trace.length).filterMap rowEvent
            = t1 ++ RowEv.samp r :: t2 → asserted t1 = [r] := by
  have hproj : ((matrix_scan db s d).1.trace.drop s.trace.length).filterMap rowEvent
      = canonicalFrom (List.range s.scanPlan.rows) := by
    rw [matrix_scan_rowcol db s d hmode]
    unfold matrix_scan_row_col_mode
    rw [(scanRowsLoop_run db (List.range s.scanPlan.rows) s d false).1,
      List.drop_left]
    exact rowEvents_loopTraceSpec db (sampleOf s) s.sBytesPerRow s.slowClockMode
      s.sDelayIdle s.sDelayDebouncing (List.range s.scanPlan.rows) d
  exact ⟨hproj, fun t1 r t2 h =>
    canonicalFrom_split (List.range s.scanPlan.rows) t1 r t2 (hproj.symm.trans h)⟩

/-- Witness for C4 at a concrete two-row ROW_COL machine. -/
theorem c4_row_mutual_exclusion_witness :
    ((scanFixture.scanPlan.mode = MATRIX_SCANNER_MODE_ROW_COL ∨
        scanFixture.scanPlan.mode = MATRIX_SCANNER_MODE_COL_ROW)
      ∧ 2 ≤ scanFixture.scanPlan.rows)
    ∧ ((matrix_scan dbNone scanFixture ()).1.trace.drop
          scanFixture.trace.length).filterMap rowEvent
        = canonicalFrom (List.range scanFixture.scanPlan.rows) :=
  ⟨⟨Or.inl rfl, by decide⟩,
    (c4_row_mutual_exclusion dbNone scanFixture () (Or.inl rfl) (by decide)).1⟩

/-- C5: in ROW_COL or COL_ROW mode the scan makes exactly one
debounce collaborator call per row, in ascending row order, and its
result is the disjunction of the changed verdicts those calls return;
in PIN_GND or PIN_VCC mode it makes exactly one call, for the
synthetic row 0, and returns that call's verdict. -/
theorem c5_scan_result {σ : Type} (db : Debouncer σ) (s : Machine) (d : σ) :
    (s.scanPlan.mode = MATRIX_SCANNER_MODE_ROW_COL ∨
        s.scanPlan.mode = MATRIX_SCANNER_MODE_COL_ROW →
      ((matrix_scan db s d).1.trace.drop s.trace.length).filterMap debCallEvent
          = List.range s.scanPlan.rows
      ∧ (matrix_scan db s d).2.2
          = (debounceResults db (sampleOf s) s.sBytesPerRow d
              (List.range s.scanPlan.rows)).any id)
    ∧ (s.scanPlan.mode = MATRIX_SCANNER_MODE_PIN_GND ∨
        s.scanPlan.mode = MATRIX_SCANNER_MODE_PIN_VCC →
      ((matrix_scan db s d).1.trace.drop s.trace.length).filterMap debCallEvent
          = [0]
      ∧ (matrix_scan db s d).2.2 = (db.step d 0 (sampleOf s) s.sBytesPerRow).1) := by
  constructor
  · intro hmode
    rw [matrix_scan_rowcol db s d hmode]
    unfold matrix_scan_row_col_mode
    constructor
    · rw [(scanRowsLoop_run db (List.range s.scanPlan.rows) s d false).1,
        List.drop_left]
      exact debCalls_loopTraceSpec db (sampleOf s) s.sBytesPerRow s.slowClockMode
        s.sDelayIdle s.sDelayDebouncing (List.range s.scanPlan.rows) d
    · rw [(scanRowsLoop_run db (List.range s.scanPlan.rows) s d false).2]
      simp
  · intro hmode
    rw [matrix_scan_pin db s d hmode]
    unfold matrix_scan_pin_mode scan_row
    constructor
    · simp only [emit_trace, List.drop_left]
      rfl
    · rfl

/-- Witness for C5 covering both the two-row ROW_COL machine and the
pin-mode machine. -/
theorem c5_scan_result_witness :
    (((matrix_scan dbNone scanFixture ()).1.trace.drop
          scanFixture.trace.length).filterMap debCallEvent
        = List.range scanFixture.scanPlan.rows
      ∧ (matrix_scan dbNone scanFixture ()).2.2
          = (debounceResults dbNone (sampleOf scanFixture)
              scanFixture.sBytesPerRow ()
              (List.range scanFixture.scanPlan.rows)).any id)
    ∧ (((matrix_scan dbNone pinFixture ()).1.trace.drop
          pinFixture.trace.length).filterMap debCallEvent = [0]
      ∧ (matrix_scan dbNone pinFixture ()).2.2
          = (dbNone.step () 0 (sampleOf pinFixture) pinFixture.sBytesPerRow).1) :=
  ⟨(c5_scan_result dbNone scanFixture ()).1 (Or.inl rfl),
   (c5_scan_result dbNone pinFixture ()).2 (Or.inl rfl)⟩

/-- C6: in every iteration of the scan loop the settle delay is the
debouncing-length delay exactly when the global count of keys
currently mid-debounce (the numKeysDebouncing query on the
collaborator state as it stands at that iteration) is nonzero, and the
idle-length delay otherwise; the selector does not depend on the row
index. -/
theorem c6_settle_delay_selection {σ : Type} (db : Debouncer σ) (s : Machine)
    (d : σ)
    (hmode : s.scanPlan.mode = MATRIX_SCANNER_MODE_ROW_COL ∨
             s.scanPlan.mode = MATRIX_SCANNER_MODE_COL_ROW) :
    ((matrix_scan db s d).1.trace.drop s.trace.length).filterMap delayEvent
      = ((List.range s.scanPlan.rows).zip
          (debounceStates db (sampleOf s) s.sBytesPerRow d
            (List.range s.scanPlan.rows))).map
          (fun pr => (s.slowClockMode,
            if db.numKeysDebouncing pr.2 ≠ 0 then s.sDelayDebouncing
            else s.sDelayIdle)) := by
  rw [matrix_scan_rowcol db s d hmode]
  unfold matrix_scan_row_col_mode
  rw [(scanRowsLoop_run db (List.range s.scanPlan.rows) s d false).1,
    List.drop_left]
  exact delays_loopTraceSpec db (sampleOf s) s.sBytesPerRow s.slowClockMode
    s.sDelayIdle s.sDelayDebouncing (List.range s.scanPlan.rows) d

@[simp] theorem op_clear_intflag_dir (s : Machine) (q p : Nat) :
    ((op_clear_intflag s q).ports p).dir = (s.ports p).dir := by
  unfold op_clear_intflag
  by_cases h : p = q <;> simp [h]

@[simp] theorem op_clear_intflag_out (s : Machine) (q p : Nat) :
    ((op_clear_intflag s q).ports p).out = (s.ports p).out := by
  unfold op_clear_intflag
  by_cases h : p = q <;> simp [h]

@[simp] theorem op_clear_intflag_inp (s : Machine) (q p : Nat) :
    ((op_clear_intflag s q).ports p).inp = (s.ports p).inp := by
  unfold op_clear_intflag
  by_cases h : p = q <;> simp [h]

@[simp] theorem op_clear_intflag_int0mask (s : Machine) (q p : Nat) :
    ((op_clear_intflag s q).ports p).int0mask = (s.ports p).int0mask := by
  unfold op_clear_intflag
  by_cases h : p = q <;> simp [h]

@[simp] theorem op_clear_intflag_intctrl (s : Machine) (q p : Nat) :
    ((op_clear_intflag s q).ports p).intctrl = (s.ports p).intctrl := by
  unfold op_clear_intflag
  by_cases h : p = q <;> simp [h]

@[simp] theorem op_clear_intflag_pinctrl (s : Machine) (q p : Nat) :
    ((op_clear_intflag s q).ports p).pinctrl = (s.ports p).pinctrl := by
  unfold op_clear_intflag
  by_cases h : p = q <;> simp [h]

@[simp] theorem op_clear_intflag_intflag0 (s : Machine) (q p : Nat) :
    ((op_clear_intflag s q).ports p).intflag0
      = if p = q then false else (s.ports p).intflag0 := by
  unfold op_clear_intflag
  by_cases h : p = q <;> simp [h]

/-- C7: arming the idle-wake interrupt performs, in order, the
assertion of every configured row, the idle settle delay, the clearing
of the stale column interrupt flags of every port, the clearing of the
triggered flag, and only then the low-priority interrupt enable on
every port; disarming first writes the interrupt level back to off on
every port and only then releases all rows. -/
theorem c7_irq_arm_disarm_order (s : Machine) :
    (matrix_scan_irq_enable s).trace
        = s.trace ++
          [.outclr 0 (s.sRowPortMasks 0), .outclr 1 (s.sRowPortMasks 1),
           .outclr 2 (s.sRowPortMasks 2), .outclr 3 (s.sRowPortMasks 3),
           .outclr 4 (s.sRowPortMasks 4), .outclr 5 (s.sRowPortMasks 5),
           .delay true s.sDelayIdle,
           .clearIntFlag 0, .clearIntFlag 1, .clearIntFlag 2,
           .clearIntFlag 3, .clearIntFlag 4, .clearIntFlag 5,
           .clearTriggered,
           .setIntLvl 0 PORT_INT0LVL_LO_gc, .setIntLvl 1 PORT_INT0LVL_LO_gc,
           .setIntLvl 2 PORT_INT0LVL_LO_gc, .setIntLvl 3 PORT_INT0LVL_LO_gc,
           .setIntLvl 4 PORT_INT0LVL_LO_gc, .setIntLvl 5 PORT_INT0LVL_LO_gc]
    ∧ (matrix_scan_irq_enable s).hasScanIrqTriggered = false
    ∧ (matrix_scan_irq_disable s).trace
        = s.trace ++
          [.setIntLvl 0 PORT_INT0LVL_OFF_gc, .setIntLvl 1 PORT_INT0LVL_OFF_gc,
           .setIntLvl 2 PORT_INT0LVL_OFF_gc, .setIntLvl 3 PORT_INT0LVL_OFF_gc,
           .setIntLvl 4 PORT_INT0LVL_OFF_gc, .setIntLvl 5 PORT_INT0LVL_OFF_gc,
           .outset 0 (s.sRowPortMasks 0), .outset 1 (s.sRowPortMasks 1),
           .outset 2 (s.sRowPortMasks 2), .outset 3 (s.sRowPortMasks 3),
           .outset 4 (s.sRowPortMasks 4), .outset 5 (s.sRowPortMasks 5)] := by
  refine ⟨?_, ?_, ?_⟩ <;>
    simp [matrix_scan_irq_enable, matrix_scan_irq_disable, select_all_rows,
      unselect_all_rows, matrix_scan_irq_clear_flags, matrix_scan_irq_clear,
      op_outclr, op_outset, op_set_intlvl, op_clear_intflag]

/-- A machine in which both port 0 and port 1 have a pending INT0
flag, as when a key press pulls columns low on both ports while the
interrupt on port 0 is being serviced. -/
def c8Fixture : Machine :=
  { bootMachine with
    ports := fun q => if q ≤ 1 then { PortRegs.boot with intflag0 := true }
             else PortRegs.boot }

/-- C8 counterexample: with the interrupt taken on port 0 while the
INT0 flag of port 1 is also pending, the handler clears the flag of
port 1 as well, so it mutates state other than the triggering port
flag and the triggered boolean. -/
theorem c8_irq_handler_counterexample :
    (c8Fixture.ports 0).intflag0 = true
    ∧ (c8Fixture.ports 1).intflag0 = true
    ∧ ((matrix_scan_irq c8Fixture).ports 1).intflag0 = false := by
  refine ⟨rfl, rfl, ?_⟩
  decide

/-- C8 amended: the handler sets the process-wide triggered boolean,
clears the INT0 interrupt flag of every port (not only the triggering
port), and changes nothing else: every other port register, the scan
plan, the ledger, the error sink, the static scanner tables and the
clock flag are untouched, and the only effects are the six flag
clears. -/
theorem c8_irq_handler_frame (s : Machine) :
    (matrix_scan_irq s).hasScanIrqTriggered = true
    ∧ (∀ p, p < 6 → ((matrix_scan_irq s).ports p).intflag0 = false)
    ∧ (∀ p, ((matrix_scan_irq s).ports p).dir = (s.ports p).dir
        ∧ ((matrix_scan_irq s).ports p).out = (s.ports p).out
        ∧ ((matrix_scan_irq s).ports p).inp = (s.ports p).inp
        ∧ ((matrix_scan_irq s).ports p).int0mask = (s.ports p).int0mask
        ∧ ((matrix_scan_irq s).ports p).intctrl = (s.ports p).intctrl
        ∧ ((matrix_scan_irq s).ports p).pinctrl = (s.ports p).pinctrl)
    ∧ (matrix_scan_irq s).scanPlan = s.scanPlan
    ∧ (matrix_scan_irq s).claimed = s.claimed
    ∧ (matrix_scan_irq s).errors = s.errors
    ∧ (matrix_scan_irq s).sColMasks = s.sColMasks
    ∧ (matrix_scan_irq s).sRowPortMasks = s.sRowPortMasks
    ∧ (matrix_scan_irq s).sRowPinMask = s.sRowPinMask
    ∧ (matrix_scan_irq s).sRowPorts = s.sRowPorts
    ∧ (matrix_scan_irq s).sBytesPerRow = s.sBytesPerRow
    ∧ (matrix_scan_irq s).sDelayIdle = s.sDelayIdle
    ∧ (matrix_scan_irq s).sDelayDebouncing = s.sDelayDebouncing
    ∧ (matrix_scan_irq s).mpcmask = s.mpcmask
    ∧ (matrix_scan_irq s).slowClockMode = s.slowClockMode
    ∧ (matrix_scan_irq s).trace
        = s.trace ++ [.clearIntFlag 0, .clearIntFlag 1, .clearIntFlag 2,
            .clearIntFlag 3, .clearIntFlag 4, .clearIntFlag 5] := by
  refine ⟨rfl, ?_, ?_, ?_, ?_, ?_, ?_, ?_, ?_, ?_, ?_, ?_, ?_, ?_, ?_, ?_⟩
  · intro p hp
    simp only [matrix_scan_irq, matrix_scan_irq_clear_flags]
    interval_cases p <;> simp
  · intro p
    refine ⟨?_, ?_, ?_, ?_, ?_, ?_⟩ <;>
      simp [matrix_scan_irq, matrix_scan_irq_clear_flags]
  all_goals
    simp [matrix_scan_irq, matrix_scan_irq_clear_flags, op_clear_intflag]

/-- Witness for C6 at the concrete two-row ROW_COL machine. -/
theorem c6_settle_delay_selection_witness :
    ((matrix_scan dbNone scanFixture ()).1.trace.drop
        scanFixture.trace.length).filterMap delayEvent
      = ((List.range scanFixture.scanPlan.rows).zip
          (debounceStates dbNone (sampleOf scanFixture)
            scanFixture.sBytesPerRow () (List.range scanFixture.scanPlan.rows))).map
          (fun pr => (scanFixture.slowClockMode,
            if dbNone.numKeysDebouncing pr.2 ≠ 0 then scanFixture.sDelayDebouncing
            else scanFixture.sDelayIdle)) :=
  c6_settle_delay_selection dbNone scanFixture () (Or.inl rfl)

/-- C9: aes_key_init initializes the cipher context from the encrypt
key only; two calls with the same encrypt key but different decrypt
keys produce identical cipher states, so every subsequent aes_encrypt
and aes_decrypt result is independent of the decrypt key argument,
whatever the underlying cipher library does. -/
theorem c9_aes_ignores_decrypt_key {Ctx : Type} (lib : AesLib Ctx)
    (ekey d1 d2 : List Nat) (s : AesState Ctx) :
    aes_key_init lib ekey d1 s = aes_key_init lib ekey d2 s
    ∧ (∀ block, aes_encrypt lib block (aes_key_init lib ekey d1 s)
        = aes_encrypt lib block (aes_key_init lib ekey d2 s))
    ∧ (∀ block, aes_decrypt lib block (aes_key_init lib ekey d1 s)
        = aes_decrypt lib block (aes_key_init lib ekey d2 s)) :=
  ⟨rfl, fun _ => rfl, fun _ => rfl⟩

@[simp] theorem nrf_register_error_inited (s : NrfState) (e : ErrorCode) :
    (nrf_register_error s e).inited = s.inited := rfl

@[simp] theorem nrf_claim_pins_inited (s : NrfState) (p m : Nat) :
    ((nrf_claim_pins s p m).2).inited = s.inited := by
  unfold nrf_claim_pins
  split <;> rfl

@[simp] theorem nrf_outset_inited (s : NrfState) (p m : Nat) :
    (nrf_outset s p m).inited = s.inited := rfl

@[simp] theorem nrf_outclr_inited (s : NrfState) (p m : Nat) :
    (nrf_outclr s p m).inited = s.inited := rfl

@[simp] theorem nrf_dirset_inited (s : NrfState) (p m : Nat) :
    (nrf_dirset s p m).inited = s.inited := rfl

@[simp] theorem spi_init_inited (env : NrfEnv) (s : NrfState) :
    (spi_init env s).inited = s.inited := rfl

@[simp] theorem nrf24_test_spi_connection_inited (env : NrfEnv) (s : NrfState) :
    ((nrf24_test_spi_connection env s).2).inited = s.inited := rfl

@[simp] theorem nrf24_ce_init_inited (env : NrfEnv) (s : NrfState) :
    (nrf24_ce_init env s).inited = s.inited := rfl

@[simp] theorem nrf24_ce_set_inited (env : NrfEnv) (s : NrfState) (v : Nat) :
    (nrf24_ce_set env s v).inited = s.inited := by
  unfold nrf24_ce_set
  split <;> rfl

theorem nrf24_init_ret (env : NrfEnv) (s : NrfState)
    (h : (s.inited || s.rfDisabled) = true) :
    nrf24_init env s = s := by
  unfold nrf24_init
  simp [h]

theorem nrf24_init_sets_inited (env : NrfEnv) (s : NrfState)
    (h : (s.inited || s.rfDisabled) = false) :
    (nrf24_init env s).inited = true := by
  unfold nrf24_init
  simp only [h, Bool.false_eq_true, if_false]
  split
  · simp
  · split
    · simp
    · split <;> simp

/-- C10: nrf24_init returns immediately, with no pin claim, error or
hardware effect, when the module is already initialized or the
rf-disabled runtime setting is active; consequently a second
consecutive call never changes anything. -/
theorem c10_nrf24_init_idempotent (env : NrfEnv) (s : NrfState) :
    (s.inited = true ∨ s.rfDisabled = true → nrf24_init env s = s)
    ∧ nrf24_init env (nrf24_init env s) = nrf24_init env s := by
  constructor
  · intro h
    apply nrf24_init_ret
    rcases h with h | h <;> simp [h]
  · cases hb : (s.inited || s.rfDisabled) with
    | false =>
      have h1 : (nrf24_init env s).inited = true := nrf24_init_sets_inited env s hb
      exact nrf24_init_ret env _ (by simp [h1])
    | true =>
      rw [nrf24_init_ret env s hb]
      exact nrf24_init_ret env s hb

/-- Board configuration fixture for the nrf24 claims. -/
def c10Env : NrfEnv :=
  { cePortNum := 4, cePinMask := 2, irqPortNum := 4, irqPinMask := 4,
    spiSettings := 0xD0, spiSettingsSlowClock := 0xD0, spiOk := true }

/-- An nrf24 module state with the initialized flag already set. -/
def c10State : NrfState :=
  { inited := true, rfDisabled := false, slowClockMode := false,
    criticalError := false, errors := [], claimed := fun _ => 0,
    ports := fun _ => PortRegs.boot, spiIntCtrl := 0, spiCtrl := 0, trace := [] }

/-- Witness for C10: with the initialized flag set, nrf24_init leaves
the state (ledger, error sink, ports and trace included) unchanged. -/
theorem c10_nrf24_init_idempotent_witness :
    c10State.inited = true ∧ nrf24_init c10Env c10State = c10State :=
  ⟨rfl, (c10_nrf24_init_idempotent c10Env c10State).1 (Or.inl rfl)⟩

@[simp] theorem register_error_scanPlan (s : Machine) (e : ErrorCode) :
    (register_error s e).scanPlan = s.scanPlan := rfl

@[simp] theorem register_error_slowClockMode (s : Machine) (e : ErrorCode) :
    (register_error s e).slowClockMode = s.slowClockMode := rfl

@[simp] theorem io_map_claim_pins_snd_scanPlan (s : Machine) (p m : Nat) :
    ((io_map_claim_pins s p m).2).scanPlan = s.scanPlan := by
  unfold io_map_claim_pins
  split <;> rfl

@[simp] theorem io_map_claim_pins_snd_slowClockMode (s : Machine) (p m : Nat) :
    ((io_map_claim_pins s p m).2).slowClockMode = s.slowClockMode := by
  unfold io_map_claim_pins
  split <;> rfl

@[simp] theorem op_dirclr_scanPlan (s : Machine) (p m : Nat) :
    (op_dirclr s p m).scanPlan = s.scanPlan := rfl

@[simp] theorem op_dirclr_slowClockMode (s : Machine) (p m : Nat) :
    (op_dirclr s p m).slowClockMode = s.slowClockMode := rfl

@[simp] theorem op_dirset_scanPlan (s : Machine) (p m : Nat) :
    (op_dirset s p m).scanPlan = s.scanPlan := rfl

@[simp] theorem op_dirset_slowClockMode (s : Machine) (p m : Nat) :
    (op_dirset s p m).slowClockMode = s.slowClockMode := rfl

@[simp] theorem op_outset_scanPlan (s : Machine) (p m : Nat) :
    (op_outset s p m).scanPlan = s.scanPlan := rfl

@[simp] theorem op_outset_slowClockMode (s : Machine) (p m : Nat) :
    (op_outset s p m).slowClockMode = s.slowClockMode := rfl

@[simp] theorem op_outclr_scanPlan (s : Machine) (p m : Nat) :
    (op_outclr s p m).scanPlan = s.scanPlan := rfl

@[simp] theorem op_outclr_slowClockMode (s : Machine) (p m : Nat) :
    (op_outclr s p m).slowClockMode = s.slowClockMode := rfl

@[simp] theorem op_int0mask_set_scanPlan (s : Machine) (p m : Nat) :
    (op_int0mask_set s p m).scanPlan = s.scanPlan := rfl

@[simp] theorem op_int0mask_set_slowClockMode (s : Machine) (p m : Nat) :
    (op_int0mask_set s p m).slowClockMode = s.slowClockMode := rfl

@[simp] theorem op_set_mpcmask_scanPlan (s : Machine) (m : Nat) :
    (op_set_mpcmask s m).scanPlan = s.scanPlan := rfl

@[simp] theorem op_set_mpcmask_slowClockMode (s : Machine) (m : Nat) :
    (op_set_mpcmask s m).slowClockMode = s.slowClockMode := rfl

@[simp] theorem op_pin0ctrl_write_scanPlan (s : Machine) (p v : Nat) :
    (op_pin0ctrl_write s p v).scanPlan = s.scanPlan := rfl

@[simp] theorem op_pin0ctrl_write_slowClockMode (s : Machine) (p v : Nat) :
    (op_pin0ctrl_write s p v).slowClockMode = s.slowClockMode := rfl

@[simp] theorem op_set_intlvl_scanPlan (s : Machine) (p lvl : Nat) :
    (op_set_intlvl s p lvl).scanPlan = s.scanPlan := rfl

@[simp] theorem op_set_intlvl_slowClockMode (s : Machine) (p lvl : Nat) :
    (op_set_intlvl s p lvl).slowClockMode = s.slowClockMode := rfl

@[simp] theorem op_clear_intflag_scanPlan (s : Machine) (p : Nat) :
    (op_clear_intflag s p).scanPlan = s.scanPlan := rfl

@[simp] theorem op_clear_intflag_slowClockMode (s : Machine) (p : Nat) :
    (op_clear_intflag s p).slowClockMode = s.slowClockMode := rfl

@[simp] theorem unselect_all_rows_scanPlan (s : Machine) :
    (unselect_all_rows s).scanPlan = s.scanPlan := by
  simp only [unselect_all_rows, op_outset_scanPlan]

@[simp] theorem unselect_all_rows_slowClockMode (s : Machine) :
    (unselect_all_rows s).slowClockMode = s.slowClockMode := by
  simp only [unselect_all_rows, op_outset_slowClockMode]

@[simp] theorem matrix_scan_irq_disable_scanPlan (s : Machine) :
    (matrix_scan_irq_disable s).scanPlan = s.scanPlan := by
  simp only [matrix_scan_irq_disable, unselect_all_rows_scanPlan,
    op_set_intlvl_scanPlan]

@[simp] theorem matrix_scan_irq_disable_slowClockMode (s : Machine) :
    (matrix_scan_irq_disable s).slowClockMode = s.slowClockMode := by
  simp only [matrix_scan_irq_disable, unselect_all_rows_slowClockMode,
    op_set_intlvl_slowClockMode]

theorem setup_columns_masks_plan (env : Env) :
    ∀ (l : List Nat) (s : Machine),
      (setup_columns_masks env s l).scanPlan = s.scanPlan
      ∧ (setup_columns_masks env s l).slowClockMode = s.slowClockMode := by
  intro l
  induction l with
  | nil => intro s; exact ⟨rfl, rfl⟩
  | cons i rest ih =>
    intro s
    simp [setup_columns_masks, ih]

theorem setup_columns_ports_plan (env : Env) :
    ∀ (l : List Nat) (s : Machine),
      (setup_columns_ports env s l).scanPlan = s.scanPlan
      ∧ (setup_columns_ports env s l).slowClockMode = s.slowClockMode := by
  intro l
  induction l with
  | nil => intro s; exact ⟨rfl, rfl⟩
  | cons p rest ih =>
    intro s
    simp only [setup_columns_ports]
    split
    · exact ih s
    · split
      · simp
      · split
        · simp [ih]
        · split
          · simp [ih]
          · simp

theorem setup_columns_plan (env : Env) (s : Machine) :
    (setup_columns env s).scanPlan = s.scanPlan
    ∧ (setup_columns env s).slowClockMode = s.slowClockMode := by
  unfold setup_columns
  simp [setup_columns_ports_plan env, setup_columns_masks_plan env]

theorem setup_rows_loop_plan (env : Env) :
    ∀ (l : List Nat) (s : Machine),
      (setup_rows_loop env s l).scanPlan = s.scanPlan
      ∧ (setup_rows_loop env s l).slowClockMode = s.slowClockMode := by
  intro l
  induction l with
  | nil => intro s; exact ⟨rfl, rfl⟩
  | cons r rest ih =>
    intro s
    simp only [setup_rows_loop]
    split
    · simp
    · split
      · simp [ih]
      · split
        · simp [ih]
        · simp

theorem setup_rows_plan (env : Env) (s : Machine) :
    (setup_rows env s).scanPlan = s.scanPlan
    ∧ (setup_rows env s).slowClockMode = s.slowClockMode := by
  unfold setup_rows
  simp [setup_rows_loop_plan env]

theorem matrix_scanner_init_body_plan (env : Env) (s : Machine) :
    (matrix_scanner_init_body env s).scanPlan = s.scanPlan
    ∧ (matrix_scanner_init_body env s).slowClockMode = s.slowClockMode := by
  unfold matrix_scanner_init_body
  constructor <;>
    simp only [apply_ite Machine.slowClockMode, apply_ite Machine.scanPlan,
      ite_self, emit_slowClockMode, emit_scanPlan,
      unselect_all_rows_scanPlan, unselect_all_rows_slowClockMode,
      matrix_scan_irq_disable_scanPlan, matrix_scan_irq_disable_slowClockMode,
      setup_columns_plan, setup_rows_plan]

theorem matrix_scanner_init_delays (env : Env) (s : Machine)
    (hguard : ¬(s.scanPlan.rows > env.maxNumRows ∨
        s.scanPlan.max_col_pin_num > env.ioPortMaxPinNum)) :
    (matrix_scanner_init env s).sDelayIdle
      = (if s.slowClockMode then
          ((s.scanPlan.parasitic_discharge_delay_idle
              * ((env.clockSpeedSlow / 1000000) % 256)) % 65536
            / ((16000000 / 1000000) % 256)) % 256
        else s.scanPlan.parasitic_discharge_delay_idle)
    ∧ (matrix_scanner_init env s).sDelayDebouncing
      = (if s.slowClockMode then
          ((s.scanPlan.parasitic_discharge_delay_debouncing
              * ((env.clockSpeedSlow / 1000000) % 256)) % 65536
            / ((16000000 / 1000000) % 256)) % 256
        else s.scanPlan.parasitic_discharge_delay_debouncing) := by
  obtain ⟨hp, hs⟩ := matrix_scanner_init_body_plan env s
  unfold matrix_scanner_init
  rw [if_neg hguard]
  simp only [hp, hs]
  cases hb : s.slowClockMode <;> simp [hb]

/-- C2: with slow-clock mode active, initialization stores for each
nominal delay constant D the value D * slow_factor / 16 rounded toward
zero, where slow_factor is the slow clock frequency divided by one
MHz; the 16-bit accumulator never overflows for 8-bit D, and with
slow-clock mode inactive D is stored unchanged. -/
theorem c2_delay_scaling (env : Env) (s : Machine)
    (hguard : ¬(s.scanPlan.rows > env.maxNumRows ∨
        s.scanPlan.max_col_pin_num > env.ioPortMaxPinNum))
    (hD1 : s.scanPlan.parasitic_discharge_delay_idle < 256)
    (hD2 : s.scanPlan.parasitic_discharge_delay_debouncing < 256)
    (hclk : env.clockSpeedSlow ≤ 16000000) :
    (s.slowClockMode = true →
      (matrix_scanner_init env s).sDelayIdle
        = s.scanPlan.parasitic_discharge_delay_idle
            * (env.clockSpeedSlow / 1000000) / 16
      ∧ (matrix_scanner_init env s).sDelayDebouncing
        = s.scanPlan.parasitic_discharge_delay_debouncing
            * (env.clockSpeedSlow / 1000000) / 16
      ∧ s.scanPlan.parasitic_discharge_delay_idle
          * (env.clockSpeedSlow / 1000000) < 65536
      ∧ s.scanPlan.parasitic_discharge_delay_debouncing
          * (env.clockSpeedSlow / 1000000) < 65536)
    ∧ (s.slowClockMode = false →
      (matrix_scanner_init env s).sDelayIdle
        = s.scanPlan.parasitic_discharge_delay_idle
      ∧ (matrix_scanner_init env s).sDelayDebouncing
        = s.scanPlan.parasitic_discharge_delay_debouncing) := by
  obtain ⟨h1, h2⟩ := matrix_scanner_init_delays env s hguard
  constructor
  · intro hslow
    rw [hslow] at h1 h2
    simp only [if_true] at h1 h2
    have hsf : env.clockSpeedSlow / 1000000 ≤ 16 := by omega
    have hm : (env.clockSpeedSlow / 1000000) % 256 = env.clockSpeedSlow / 1000000 :=
      Nat.mod_eq_of_lt (by omega)
    have hP1 : s.scanPlan.parasitic_discharge_delay_idle
        * (env.clockSpeedSlow / 1000000) ≤ 255 * 16 :=
      Nat.mul_le_mul (by omega) hsf
    have hP2 : s.scanPlan.parasitic_discharge_delay_debouncing
        * (env.clockSpeedSlow / 1000000) ≤ 255 * 16 :=
      Nat.mul_le_mul (by omega) hsf
    rw [hm] at h1 h2
    norm_num at h1 h2
    refine ⟨?_, ?_, by omega, by omega⟩
    · rw [h1]; omega
    · rw [h2]; omega
  · intro hslow
    rw [hslow] at h1 h2
    simp only [Bool.false_eq_true, if_false] at h1 h2
    exact ⟨h1, h2⟩

/-- Environment fixture for C2: slow clock at 1 MHz against the
16 MHz reference. -/
def c2Env : Env :=
  { maxNumRows := 10, ioPortMaxPinNum := 47, clockSpeedSlow := 1000000,
    colPinOf := fun i => i, rowPinOf := fun r => 8 + r }

/-- A machine in slow-clock mode with nominal idle delay 40. -/
def c2State : Machine :=
  { bootMachine with
    scanPlan := ⟨MATRIX_SCANNER_MODE_ROW_COL, 2, 1, 1, 40, 100⟩,
    slowClockMode := true }

/-- Witness for C2: nominal delay 40 at slow clock 1 MHz against
reference 16 MHz is stored as 2. -/
theorem c2_delay_scaling_witness :
    (¬(c2State.scanPlan.rows > c2Env.maxNumRows ∨
        c2State.scanPlan.max_col_pin_num > c2Env.ioPortMaxPinNum))
    ∧ c2State.slowClockMode = true
    ∧ (matrix_scanner_init c2Env c2State).sDelayIdle = 2 :=
  ⟨by decide, rfl, by
    have h := (c2_delay_scaling c2Env c2State (by decide) (by decide)
      (by decide) (by decide)).1 rfl
    exact h.1⟩

/-- Environment fixture for the mode table: two column pins, on port
0 pin 0 and port 1 pin 1 (absolute pin 9), and two row pins on port 2,
pins 0 and 1 (absolute pins 16 and 17). -/
def c3Env : Env :=
  { maxNumRows := 10, ioPortMaxPinNum := 47, clockSpeedSlow := 1000000,
    colPinOf := fun i => [0, 9].getD i 0, rowPinOf := fun r => [16, 17].getD r 0 }

/-- A two-row two-column scan plan with the given mode. -/
def c3Plan (mode : Nat) : ScanPlan := ⟨mode, 2, 2, 9, 40, 100⟩

/-- Full initialization run of the representative plan in the given
mode from the reset state. -/
def c3Run (mode : Nat) : Machine :=
  matrix_scanner_init c3Env { bootMachine with scanPlan := c3Plan mode }

/-- Column setup run with an unrecognized mode value. -/
def c3BadRun : Machine :=
  setup_columns c3Env { bootMachine with scanPlan := c3Plan 7 }

/-- C3 counterexample: in COL_ROW mode a configured row pin is given
the non-inverted Wired-AND drive, which disconnects when the value 1 —
not 0 — is written to its OUT register bit, refuting the claim that
COL_ROW rows disconnect on write-0. -/
theorem c3_mode_electrical_policy_counterexample :
    invenOf (((c3Run MATRIX_SCANNER_MODE_COL_ROW).ports 2).pinctrl 0) = false
    ∧ disconnectWriteValue (((c3Run MATRIX_SCANNER_MODE_COL_ROW).ports 2).pinctrl 0)
        = some 1
    ∧ ¬ disconnectWriteValue (((c3Run MATRIX_SCANNER_MODE_COL_ROW).ports 2).pinctrl 0)
        = some 0 := by
  refine ⟨?_, ?_, ?_⟩ <;> decide

/-- C3 amended: the electrical policy of the four modes on the
representative plan.  ROW_COL and PIN_VCC columns are pull-down,
non-inverted inputs with both-edge sensitivity; COL_ROW and PIN_GND
columns are pull-up, inverted inputs with both-edge sensitivity;
ROW_COL rows are inverted outputs that disconnect on write-1; COL_ROW
rows are non-inverted outputs that also disconnect on write-1 (the
Wired-AND drive, not write-0 as the original table said); the pin
modes configure and claim no row pins; an unrecognized mode registers
unsupported-scan-mode and stops configuring at that point. -/
theorem c3_mode_electrical_policy :
    (isPullDown (((c3Run MATRIX_SCANNER_MODE_ROW_COL).ports 0).pinctrl 0)
      ∧ invenOf (((c3Run MATRIX_SCANNER_MODE_ROW_COL).ports 0).pinctrl 0) = false
      ∧ isBothEdges (((c3Run MATRIX_SCANNER_MODE_ROW_COL).ports 0).pinctrl 0)
      ∧ isPullDown (((c3Run MATRIX_SCANNER_MODE_ROW_COL).ports 1).pinctrl 1)
      ∧ invenOf (((c3Run MATRIX_SCANNER_MODE_ROW_COL).ports 1).pinctrl 1) = false
      ∧ isBothEdges (((c3Run MATRIX_SCANNER_MODE_ROW_COL).ports 1).pinctrl 1))
    ∧ (invenOf (((c3Run MATRIX_SCANNER_MODE_ROW_COL).ports 2).pinctrl 0) = true
      ∧ disconnectWriteValue (((c3Run MATRIX_SCANNER_MODE_ROW_COL).ports 2).pinctrl 0)
          = some 1
      ∧ invenOf (((c3Run MATRIX_SCANNER_MODE_ROW_COL).ports 2).pinctrl 1) = true
      ∧ disconnectWriteValue (((c3Run MATRIX_SCANNER_MODE_ROW_COL).ports 2).pinctrl 1)
          = some 1)
    ∧ (isPullUp (((c3Run MATRIX_SCANNER_MODE_COL_ROW).ports 0).pinctrl 0)
      ∧ invenOf (((c3Run MATRIX_SCANNER_MODE_COL_ROW).ports 0).pinctrl 0) = true
      ∧ isBothEdges (((c3Run MATRIX_SCANNER_MODE_COL_ROW).ports 0).pinctrl 0)
      ∧ isPullUp (((c3Run MATRIX_SCANNER_MODE_COL_ROW).ports 1).pinctrl 1)
      ∧ invenOf (((c3Run MATRIX_SCANNER_MODE_COL_ROW).ports 1).pinctrl 1) = true
      ∧ isBothEdges (((c3Run MATRIX_SCANNER_MODE_COL_ROW).ports 1).pinctrl 1))
    ∧ (invenOf (((c3Run MATRIX_SCANNER_MODE_COL_ROW).ports 2).pinctrl 0) = false
      ∧ disconnectWriteValue (((c3Run MATRIX_SCANNER_MODE_COL_ROW).ports 2).pinctrl 0)
          = some 1
      ∧ invenOf (((c3Run MATRIX_SCANNER_MODE_COL_ROW).ports 2).pinctrl 1) = false
      ∧ disconnectWriteValue (((c3Run MATRIX_SCANNER_MODE_COL_ROW).ports 2).pinctrl 1)
          = some 1)
    ∧ (isPullDown (((c3Run MATRIX_SCANNER_MODE_PIN_VCC).ports 0).pinctrl 0)
      ∧ invenOf (((c3Run MATRIX_SCANNER_MODE_PIN_VCC).ports 0).pinctrl 0) = false
      ∧ isBothEdges (((c3Run MATRIX_SCANNER_MODE_PIN_VCC).ports 0).pinctrl 0)
      ∧ ((c3Run MATRIX_SCANNER_MODE_PIN_VCC).ports 2).dir = 0
      ∧ ((c3Run MATRIX_SCANNER_MODE_PIN_VCC).ports 2).pinctrl 0 = 0
      ∧ ((c3Run MATRIX_SCANNER_MODE_PIN_VCC).ports 2).pinctrl 1 = 0
      ∧ (c3Run MATRIX_SCANNER_MODE_PIN_VCC).claimed 2 = 0)
    ∧ (isPullUp (((c3Run MATRIX_SCANNER_MODE_PIN_GND).ports 0).pinctrl 0)
      ∧ invenOf (((c3Run MATRIX_SCANNER_MODE_PIN_GND).ports 0).pinctrl 0) = true
      ∧ isBothEdges (((c3Run MATRIX_SCANNER_MODE_PIN_GND).ports 0).pinctrl 0)
      ∧ ((c3Run MATRIX_SCANNER_MODE_PIN_GND).ports 2).dir = 0
      ∧ ((c3Run MATRIX_SCANNER_MODE_PIN_GND).ports 2).pinctrl 0 = 0
      ∧ ((c3Run MATRIX_SCANNER_MODE_PIN_GND).ports 2).pinctrl 1 = 0
      ∧ (c3Run MATRIX_SCANNER_MODE_PIN_GND).claimed 2 = 0)
    ∧ (c3BadRun.trace
        = [.claim 0 1, .dirclr 0 1, .int0maskSet 0 1, .mpcmaskSet 1,
           .error ErrorCode.unsupportedScanMode]
      ∧ c3BadRun.errors = [ErrorCode.unsupportedScanMode]) := by
  refine ⟨⟨?_, ?_, ?_, ?_, ?_, ?_⟩, ⟨?_, ?_, ?_, ?_⟩, ⟨?_, ?_, ?_, ?_, ?_, ?_⟩,
    ⟨?_, ?_, ?_, ?_⟩, ⟨?_, ?_, ?_, ?_, ?_, ?_, ?_⟩, ⟨?_, ?_, ?_, ?_, ?_, ?_, ?_⟩,
    ⟨?_, ?_⟩⟩ <;> decide

/-- C1: when the scan plan is too large (row count above the maximum
or highest column pin above the addressable range), initialization
zeroes the whole plan, registers configuration-too-large and returns
at once: the trace gains only the error event, so no pin claim call is
made, and the port registers and the ledger are untouched. -/
theorem c1_validation_gate (env : Env) (s : Machine)
    (h : s.scanPlan.rows > env.maxNumRows ∨
         s.scanPlan.max_col_pin_num > env.ioPortMaxPinNum) :
    (matrix_scanner_init env s).scanPlan = ScanPlan.zero
    ∧ (matrix_scanner_init env s).errors
        = s.errors ++ [ErrorCode.matrixPinsConfigTooLarge]
    ∧ (matrix_scanner_init env s).trace
        = s.trace ++ [Effect.error ErrorCode.matrixPinsConfigTooLarge]
    ∧ (matrix_scanner_init env s).ports = s.ports
    ∧ (matrix_scanner_init env s).claimed = s.claimed := by
  have hstep : matrix_scanner_init env s
      = register_error { s with scanPlan := ScanPlan.zero }
          .matrixPinsConfigTooLarge := by
    unfold matrix_scanner_init
    rw [if_pos h]
  rw [hstep]
  exact ⟨rfl, rfl, rfl, rfl, rfl⟩

/-- Environment fixture with a row bound of 10. -/
def c1Env : Env :=
  { maxNumRows := 10, ioPortMaxPinNum := 47, clockSpeedSlow := 1000000,
    colPinOf := fun _ => 0, rowPinOf := fun _ => 0 }

/-- A scan plan demanding 11 rows, one above the bound. -/
def c1State : Machine :=
  { bootMachine with
    scanPlan := ⟨MATRIX_SCANNER_MODE_ROW_COL, 11, 2, 9, 0, 0⟩ }

/-- Witness for C1 at an 11-row plan against a 10-row bound. -/
theorem c1_validation_gate_witness :
    (c1State.scanPlan.rows > c1Env.maxNumRows ∨
      c1State.scanPlan.max_col_pin_num > c1Env.ioPortMaxPinNum)
    ∧ (matrix_scanner_init c1Env c1State).scanPlan = ScanPlan.zero
    ∧ (matrix_scanner_init c1Env c1State).trace
        = c1State.trace ++ [Effect.error ErrorCode.matrixPinsConfigTooLarge] :=
  ⟨Or.inl (by decide),
   (c1_validation_gate c1Env c1State (Or.inl (by decide))).1,
   (c1_validation_gate c1Env c1State (Or.inl (by decide))).2.2.1⟩

end Keyplus
